import Mathlib

/-!
Verification of the order workflow of the Jetak food-delivery backend.

The definitions below are a shallow embedding of the JavaScript route
handlers in `src/routes/api/v1/order.routes.js` and
`src/routes/api/v1/admin.order.routes.js`, together with the admin
menu-price update handler. JavaScript numbers are IEEE-754 binary64
values; we model them as exact rationals together with an explicit
round-to-nearest-even rounding function `fl`, applied after every
arithmetic operation exactly where the JavaScript engine would round.
-/

set_option maxRecDepth 16384

namespace Jetak

/-- Fuel-driven floor of the base-2 logarithm of a natural number,
written with structural recursion so that the kernel can evaluate it. -/
def nlog2 : Nat → Nat → Nat
  | 0, _ => 0
  | fuel + 1, n => if n ≤ 1 then 0 else nlog2 fuel (n / 2) + 1

/-- Floor of the base-2 logarithm of a natural number (enough fuel). -/
def log2floor (n : Nat) : Nat := nlog2 n n

/-- Integer part of the base-2 logarithm of the positive rational `n / d`
(with `n, d ≥ 1`), computed with natural-number arithmetic only. -/
def ilog2n (n d : Nat) : ℤ :=
  let k0 : ℤ := (log2floor n : ℤ) - (log2floor d : ℤ)
  let ok : Bool :=
    if 0 ≤ k0 then decide (d * 2 ^ k0.toNat ≤ n) else decide (d ≤ n * 2 ^ (-k0).toNat)
  if ok then k0 else k0 - 1

/-- Rounding of an exact rational to the nearest IEEE-754 binary64 value
(53-bit significand, round to nearest, ties to even), in the normal range.
This is the rounding a JavaScript engine applies to every numeric literal
and after every arithmetic operation. The scaled significand `u / v` lies
in `[2^52, 2^53)` and is rounded to a natural number with ties to even. -/
def fl (q : ℚ) : ℚ :=
  if q = 0 then 0
  else
    let a := q.num.natAbs
    let d := q.den
    let e := ilog2n a d
    let u := a * 2 ^ (52 - e).toNat
    let v := d * 2 ^ (e - 52).toNat
    let q0 := u / v
    let r := u % v
    let n : ℕ :=
      if 2 * r < v then q0
      else if v < 2 * r then q0 + 1
      else if q0 % 2 = 0 then q0 else q0 + 1
    let mag : ℚ :=
      if e ≤ 52 then mkRat (n : ℤ) (2 ^ (52 - e).toNat)
      else ((n * 2 ^ (e - 52).toNat : ℕ) : ℚ)
    if q < 0 then -mag else mag

/-- JavaScript addition of two numbers: exact sum, then binary64 rounding. -/
def jadd (x y : ℚ) : ℚ := fl (x + y)

/-- JavaScript multiplication of two numbers: exact product, then binary64
rounding. -/
def jmul (x y : ℚ) : ℚ := fl (x * y)

/-- Rounding applied by PostgreSQL when a value is stored into a
NUMERIC(p, s) column: round to s fractional decimal digits, ties away
from zero. The orders and order_items money columns are DECIMAL(10,2);
the delivery coordinate columns are DECIMAL(10,8) and DECIMAL(11,8). -/
def numericRound (s : ℕ) (q : ℚ) : ℚ :=
  let p := 10 ^ s
  let a := q.num.natAbs * p
  let d := q.den
  let k := a / d
  let r := a % d
  let k2 := if d ≤ 2 * r then k + 1 else k
  if q < 0 then -mkRat (k2 : ℤ) p else mkRat (k2 : ℤ) p

example : numericRound 2 (mkRat 1351079888211149 (2 ^ 52)) = mkRat 30 100 := by
  with_unfolding_all decide

example : log2floor (2 ^ 56 / 10) = 52 := by with_unfolding_all decide
example : (fl (mkRat 1 10)).num = 3602879701896397 := by with_unfolding_all decide
example : (fl (mkRat 1 10)).den = 2 ^ 55 := by with_unfolding_all decide
example : (fl (mkRat 1 5)).den = 2 ^ 54 := by with_unfolding_all decide
example : (jadd (fl (mkRat 1 10)) (fl (mkRat 1 5))).num = 1351079888211149 := by
  with_unfolding_all decide
example : jadd 0 (jmul (fl 5) 2) = 10 := by with_unfolding_all decide

/-! ### Data model

Rows of the `menu_items`, `orders` and `order_items` tables
(src/config/schemas.sql), restricted to the columns the order workflow
reads or writes. Identifiers are modelled as naturals. Monetary columns
are `DECIMAL(10,2)`; their exact values are rationals. -/

/-- Row of the `menu_items` table (the catalog collaborator). -/
structure MenuItemRow where
  id : Nat
  price : ℚ
deriving DecidableEq, Repr

/-- Row of the `orders` table (the order header). -/
structure OrderRow where
  id : Nat
  user_id : Nat
  store_id : Nat
  total_amount : ℚ
  status : String
  delivery_address : String
  delivery_latitude : Option ℚ
  delivery_longitude : Option ℚ
  notes : Option String
deriving DecidableEq, Repr

/-- Row of the `order_items` table. The `price` column is `DECIMAL(10,2)
NOT NULL` in the schema; the handler fills it from the request field
`item.price`, which the documented API shape does not require, so the
value sent can be absent. We record what the handler sends, rounded to
the column scale by the store. -/
structure OrderItemRow where
  order_id : Nat
  menu_item_id : Nat
  quantity : ℚ
  price : Option ℚ
deriving DecidableEq, Repr

/-- The persistent store: the three tables touched by the order workflow,
plus the id the store will assign to the next inserted order. -/
structure DBState where
  menu_items : List MenuItemRow
  orders : List OrderRow
  order_items : List OrderItemRow
  nextId : Nat
deriving DecidableEq, Repr

/-- HTTP response of a handler: status code, the order row returned in the
body on success, and the literal error message when the source supplies
one (messages interpolated from thrown exceptions are modelled as
`none`). -/
structure Response where
  status : Nat
  data : Option OrderRow
  error : Option String
deriving DecidableEq, Repr

/-- One element of the request `items` array. `menu_item_id` and
`quantity` are the documented fields; `price` models the extra field the
createOrder handler reads at order.routes.js line 140. Numeric fields hold
the binary64 values produced by JSON parsing. -/
structure ReqItem where
  menu_item_id : Nat
  quantity : ℚ
  price : Option ℚ
deriving DecidableEq, Repr

/-- Body of `POST /api/orders`. -/
structure CreateOrderReq where
  store_id : Nat
  items : List ReqItem
  delivery_address : String
  delivery_latitude : Option ℚ
  delivery_longitude : Option ℚ
  notes : Option String
deriving DecidableEq, Repr

/-- Semantics of the supabase-js `.single()` modifier: PostgREST answers a
singular-object request with an error unless the result set has exactly
one row, and the client surfaces that error (so zero rows yield an error,
not a null row). -/
def single {α : Type} (rows : List α) : Except Unit α :=
  match rows with
  | [x] => Except.ok x
  | _ => Except.error ()

/-! ### createOrder (order.routes.js lines 75-157) -/

/-- The express-validator chain declared on `POST /api/orders`
(order.routes.js lines 78-85): non-empty items array, integer quantity at
least 1, non-empty delivery address, optional coordinates in range.
(UUID-shape checks have no content for our abstract identifiers.) The
handler itself never consults `validationResult`, so this predicate is
recorded but never enforced by `createOrder` below, exactly as in the
source. -/
def validateCreateOrder (r : CreateOrderReq) : Bool :=
  (!r.items.isEmpty) &&
  r.items.all (fun it => it.quantity.den == 1 && decide (1 ≤ it.quantity)) &&
  (!(r.delivery_address == "")) &&
  (match r.delivery_latitude with
   | none => true
   | some la => decide (-90 ≤ la) && decide (la ≤ 90)) &&
  (match r.delivery_longitude with
   | none => true
   | some lo => decide (-180 ≤ lo) && decide (lo ≤ 180))

/-- The price-resolution loop of the handler (order.routes.js lines
99-109): for each requested item, select its price from `menu_items` with
`.single()`; on error throw; otherwise accumulate
`total_amount += menuItem.price * item.quantity` in JavaScript (binary64)
arithmetic. The stored decimal price becomes the binary64 value `fl price`
when the client parses the JSON response. -/
def computeTotal (menu : List MenuItemRow) : List ReqItem → ℚ → Except Unit ℚ
  | [], acc => Except.ok acc
  | it :: rest, acc =>
    match single (menu.filter (fun m => m.id == it.menu_item_id)) with
    | Except.error _ => Except.error ()
    | Except.ok m => computeTotal menu rest (jadd acc (jmul (fl m.price) it.quantity))

/-- Handler of `POST /api/orders` (order.routes.js lines 87-156).
`failItems` injects a persistence failure at the `order_items` insert
(for example the NOT NULL violation on `price` when the client omits that
field); the source has no transaction and no rollback, so the header
insert survives such a failure. Any thrown error is caught and answered
with status 500. The dead `if (!order || !order.id)` branch after a
successful insert is not reachable in the model, matching `.single()`
semantics. On insert the store rounds each value to the scale of its
NUMERIC column (total_amount and item price to 2 decimals, coordinates to
8), and the row returned by `.insert(...).select().single()` — hence the
response body — is the stored, rounded row. -/
def createOrder (failItems : Bool) (st : DBState) (userId : Nat)
    (r : CreateOrderReq) : DBState × Response :=
  match computeTotal st.menu_items r.items 0 with
  | Except.error _ => (st, ⟨500, none, none⟩)
  | Except.ok total =>
    let oid := st.nextId
    let order : OrderRow :=
      { id := oid, user_id := userId, store_id := r.store_id,
        total_amount := numericRound 2 total, status := "pending",
        delivery_address := r.delivery_address,
        delivery_latitude := r.delivery_latitude.map (numericRound 8),
        delivery_longitude := r.delivery_longitude.map (numericRound 8),
        notes := r.notes }
    let st1 : DBState :=
      { st with orders := st.orders ++ [order], nextId := st.nextId + 1 }
    let rows := r.items.map (fun it =>
      ({ order_id := oid, menu_item_id := it.menu_item_id,
         quantity := it.quantity,
         price := it.price.map (numericRound 2) } : OrderItemRow))
    if failItems then (st1, ⟨500, none, none⟩)
    else ({ st1 with order_items := st1.order_items ++ rows }, ⟨201, some order, none⟩)

/-! ### cancelOrder (order.routes.js lines 339-378) -/

/-- Handler of `PUT /api/orders/:id/cancel`. It selects the order by id
and by the authenticated user id with `.single()` (throwing, hence
answering 500, when that does not match exactly one row — the
`if (!order)` 404 branch of the source is unreachable for that reason),
rejects with 400 "Order cannot be cancelled" unless the current status is
`pending` or `confirmed`, and otherwise updates the status to `cancelled`
filtering by id alone, returning the updated row. -/
def cancelOrder (st : DBState) (userId : Nat) (orderId : Nat) :
    DBState × Response :=
  match single (st.orders.filter (fun o => o.id == orderId && o.user_id == userId)) with
  | Except.error _ => (st, ⟨500, none, none⟩)
  | Except.ok order =>
    if ["pending", "confirmed"].contains order.status then
      let newOrders := st.orders.map (fun o =>
        if o.id == orderId then { o with status := "cancelled" } else o)
      let st1 : DBState := { st with orders := newOrders }
      match single (newOrders.filter (fun o => o.id == orderId)) with
      | Except.error _ => (st1, ⟨500, none, none⟩)
      | Except.ok updated => (st1, ⟨200, some updated, none⟩)
    else (st, ⟨400, none, some "Order cannot be cancelled"⟩)

/-! ### advanceOrderStatus (admin.order.routes.js lines 319-348) -/

/-- The status whitelist of the admin handler (admin.order.routes.js line
325). -/
def validStatuses : List String :=
  ["pending", "confirmed", "preparing", "ready", "delivered", "cancelled"]

/-- Handler of `PUT /admin/api/orders/:id/status`. After checking only
that the requested value is one of the six known statuses, it updates the
order unconditionally — the current status is never read and no
transition table is consulted. A missing order makes `.single()` throw
(500 "Internal server error"); the `if (!data)` 404 branch is unreachable.
Only the status column is written. -/
def advanceOrderStatus (st : DBState) (orderId : Nat) (status : String) :
    DBState × Response :=
  if validStatuses.contains status then
    let newOrders := st.orders.map (fun o =>
      if o.id == orderId then { o with status := status } else o)
    let st1 : DBState := { st with orders := newOrders }
    match single (newOrders.filter (fun o => o.id == orderId)) with
    | Except.error _ => (st1, ⟨500, none, some "Internal server error"⟩)
    | Except.ok updated => (st1, ⟨200, some updated, none⟩)
  else (st, ⟨400, none, some "Invalid status value"⟩)

/-! ### Admin catalog price update (admin menu routes, PUT /admin/api/menu/:menu_id) -/

/-- State effect of the admin menu-item update handler when the request
carries a `price` field: `update menu_items set price where id = menu_id`.
Only the effect on the store matters for the claims about orders. -/
def updateMenuItemPrice (st : DBState) (menuId : Nat) (newPrice : ℚ) : DBState :=
  { st with menu_items := st.menu_items.map (fun m =>
      if m.id == menuId then { m with price := newPrice } else m) }

/-! ### The status machine of the specification

The next definition is written from the words of the specification
(section 4.2 transition table), not from the source; it exists to compare
the source behaviour against the specified one. -/

/-- Allowed-to sets of the specified transition table: pending maps to
confirmed or cancelled, confirmed to preparing or cancelled, preparing to
ready, ready to delivered; delivered and cancelled are terminal. -/
def specAllowedTo : String → List String
  | "pending" => ["confirmed", "cancelled"]
  | "confirmed" => ["preparing", "cancelled"]
  | "preparing" => ["ready"]
  | "ready" => ["delivered"]
  | _ => []

/-! ### Concrete fixtures used by witnesses and counterexamples -/

/-- Catalog with one item priced 5.00. -/
def stCatalog : DBState := ⟨[⟨1, 5⟩], [], [], 10⟩

/-- Catalog with two items priced 0.10 and 0.20 (exact decimals). -/
def stDecimalCatalog : DBState := ⟨[⟨1, mkRat 1 10⟩, ⟨2, mkRat 1 5⟩], [], [], 10⟩

/-- A pending order of user 1 at store 2, total 5.00. -/
def orderPending : OrderRow := ⟨1, 1, 2, 5, "pending", "addr", none, none, none⟩

/-- A delivered order of user 1. -/
def orderDelivered : OrderRow := ⟨1, 1, 2, 5, "delivered", "addr", none, none, none⟩

/-- Store holding just the pending order. -/
def stPending : DBState := ⟨[], [orderPending], [], 10⟩

/-- Store holding just the delivered order. -/
def stDelivered : DBState := ⟨[], [orderDelivered], [], 10⟩

/-- Cart asking for two units of item 1, with the undocumented request
field `price` set to the catalog price. -/
def reqTwoUnits : CreateOrderReq := ⟨2, [⟨1, 2, some 5⟩], "addr", none, none, none⟩

/-! ### Helper lemmas -/

/-- Updating the status of the row with a given id commutes with filtering
on that id. -/
theorem filter_map_setStatus (l : List OrderRow) (oid : Nat) (s : String) :
    (l.map (fun o => if o.id = oid then { o with status := s } else o)).filter
        (fun o => o.id == oid)
      = (l.filter (fun o => o.id == oid)).map (fun o => { o with status := s }) := by
  induction l with
  | nil => rfl
  | cons a t ih =>
    by_cases h : a.id = oid <;> simp [List.filter_cons, h] <;> simpa using ih

/-- Filtering on id and user decomposes into two filters. -/
theorem filter_id_user (l : List OrderRow) (oid u : Nat) :
    l.filter (fun o => o.id == oid && o.user_id == u)
      = (l.filter (fun o => o.id == oid)).filter (fun o => o.user_id == u) := by
  induction l with
  | nil => rfl
  | cons a t ih =>
    by_cases h1 : a.id = oid <;> by_cases h2 : a.user_id = u <;>
      simp [List.filter_cons, h1, h2] <;> simpa using ih

/-- Successful path of the admin status update: any whitelisted status is
written unconditionally over the unique order with the given id. -/
theorem advance_ok (st : DBState) (oid : Nat) (s : String) (o : OrderRow)
    (hs : s ∈ validStatuses)
    (hid : st.orders.filter (fun r => r.id == oid) = [o]) :
    advanceOrderStatus st oid s =
      ({ st with orders := st.orders.map (fun r =>
          if r.id = oid then { r with status := s } else r) },
       ⟨200, some { o with status := s }, none⟩) := by
  simp [advanceOrderStatus, hs, filter_map_setStatus, hid, single]

/-- The admin status update rejects unknown status strings. -/
theorem advance_badStatus (st : DBState) (oid : Nat) (s : String)
    (hs : s ∉ validStatuses) :
    advanceOrderStatus st oid s = (st, ⟨400, none, some "Invalid status value"⟩) := by
  simp [advanceOrderStatus, hs]

/-- When no row matches both the order id and the caller id, the
`.single()` lookup errors and cancelOrder answers 500 without touching the
store. -/
theorem cancel_notOwned (st : DBState) (u oid : Nat)
    (h : st.orders.filter (fun o => o.id == oid && o.user_id == u) = []) :
    cancelOrder st u oid = (st, ⟨500, none, none⟩) := by
  simp [cancelOrder, h, single]

/-- Successful cancellation: the caller owns the unique matching order and
its status passes the inline whitelist. -/
theorem cancel_ok (st : DBState) (u oid : Nat) (o : OrderRow)
    (hid : st.orders.filter (fun r => r.id == oid) = [o])
    (huser : o.user_id = u)
    (hst : o.status = "pending" ∨ o.status = "confirmed") :
    cancelOrder st u oid =
      ({ st with orders := st.orders.map (fun r =>
          if r.id = oid then { r with status := "cancelled" } else r) },
       ⟨200, some { o with status := "cancelled" }, none⟩) := by
  have h1 : st.orders.filter (fun r => r.id == oid && r.user_id == u) = [o] := by
    rw [filter_id_user, hid]; simp [huser]
  rcases hst with h | h <;>
    simp [cancelOrder, h1, single, h, filter_map_setStatus, hid]

/-- Rejected cancellation: the order is found but its status fails the
inline whitelist; the store is left untouched. -/
theorem cancel_rejected (st : DBState) (u oid : Nat) (o : OrderRow)
    (hid : st.orders.filter (fun r => r.id == oid) = [o])
    (huser : o.user_id = u)
    (hne1 : o.status ≠ "pending") (hne2 : o.status ≠ "confirmed") :
    cancelOrder st u oid = (st, ⟨400, none, some "Order cannot be cancelled"⟩) := by
  have h1 : st.orders.filter (fun r => r.id == oid && r.user_id == u) = [o] := by
    rw [filter_id_user, hid]; simp [huser]
  simp [cancelOrder, h1, single, hne1, hne2]

/-- A failed price resolution aborts createOrder before any write. -/
theorem createOrder_err (b : Bool) (st : DBState) (u : Nat) (r : CreateOrderReq)
    (h : computeTotal st.menu_items r.items 0 = Except.error ()) :
    createOrder b st u r = (st, ⟨500, none, none⟩) := by
  simp [createOrder, h]

/-- When every requested item resolves to exactly one catalog row whose
price is given by `pr`, the handler loop computes the left-to-right
binary64 fold of `price × quantity` over the cart. -/
theorem computeTotal_resolved (menu : List MenuItemRow) (pr : Nat → ℚ) :
    ∀ (items : List ReqItem) (acc : ℚ),
      (∀ it ∈ items,
        (menu.filter (fun m => m.id == it.menu_item_id)).map MenuItemRow.price
          = [pr it.menu_item_id]) →
      computeTotal menu items acc =
        Except.ok (items.foldl
          (fun a it => jadd a (jmul (fl (pr it.menu_item_id)) it.quantity)) acc) := by
  intro items
  induction items with
  | nil => intro acc _; rfl
  | cons it rest ih =>
    intro acc h
    have hhd := h it (by simp)
    obtain ⟨m, hm, hp⟩ : ∃ m,
        menu.filter (fun m => m.id == it.menu_item_id) = [m] ∧
          m.price = pr it.menu_item_id := by
      cases hf : menu.filter (fun m => m.id == it.menu_item_id) with
      | nil => rw [hf] at hhd; simp at hhd
      | cons a t =>
        rw [hf] at hhd
        cases t with
        | nil =>
          refine ⟨a, rfl, ?_⟩
          simpa using hhd
        | cons b t2 => simp at hhd
    have htl : ∀ x ∈ rest,
        (menu.filter (fun m => m.id == x.menu_item_id)).map MenuItemRow.price
          = [pr x.menu_item_id] := fun x hx => h x (by simp [hx])
    unfold computeTotal
    rw [hm]
    simp only [single, List.foldl_cons, hp]
    exact ih _ htl

/-- Cart asking for one unit of item 1 with the undocumented request field
`price` set to 999, different from the catalog price 5.00. -/
def reqClientPrice : CreateOrderReq := ⟨2, [⟨1, 1, some 999⟩], "addr", none, none, none⟩

/-- Request with an empty items array (fails the declared `notEmpty`
validator). -/
def reqNoItems : CreateOrderReq := ⟨2, [], "addr", none, none, none⟩

/-- Cart asking for one unit each of items 1 and 2. -/
def reqDecimalCart : CreateOrderReq :=
  ⟨2, [⟨1, 1, none⟩, ⟨2, 1, none⟩], "addr", none, none, none⟩

/-- Empty catalog. -/
def stEmptyCatalog : DBState := ⟨[], [], [], 10⟩

/-- Catalog price function of `stDecimalCatalog`. -/
def priceFun : Nat → ℚ := fun i => if i = 1 then mkRat 1 10 else mkRat 1 5

/-- Catalog with an item priced 99999999.99 and an adjustment item priced
-99999999.99. The admin menu endpoints validate `price` only with
`isNumeric()`, so a negative price passes them, and `DECIMAL(10,2)`
stores it; the order path never checks the sign either. -/
def stExtremeCatalog : DBState :=
  ⟨[⟨1, mkRat 9999999999 100⟩, ⟨2, mkRat (-9999999999) 100⟩], [], [], 10⟩

/-- Exact decimal catalog prices of `stExtremeCatalog`. -/
def priceFunExtreme : Nat → ℚ :=
  fun i => if i = 1 then mkRat 9999999999 100 else mkRat (-9999999999) 100

/-- Valid cart over `stExtremeCatalog` whose exact decimal total is 0.00:
1209262696 units of item 1 against 547756575 + 661506121 = 1209262696
units of item 2 (all quantities are positive integers within the INTEGER
column range). -/
def reqExtremeCart : CreateOrderReq :=
  ⟨2, [⟨1, 1209262696, none⟩, ⟨2, 547756575, none⟩, ⟨2, 661506121, none⟩],
   "addr", none, none, none⟩

/-! ### Claims -/

/-- C1: the claim states order creation is all-or-nothing. Evaluating the
handler at a concrete cart with a failure injected at the line-items
insert (for instance the NOT NULL violation on `order_items.price` that
occurs whenever the client omits the undocumented `price` field): the call
answers 500, yet the order header (id 10, user 7, total 10.00, status
pending) remains durably written with no line items — an orphaned header,
because the source performs two independent inserts with no transaction
and no rollback. -/
theorem createOrder_failedItems_orphanHeader :
    ((createOrder true stCatalog 7 reqTwoUnits).2).status = 500 ∧
    ((createOrder true stCatalog 7 reqTwoUnits).1).orders =
      [⟨10, 7, 2, 10, "pending", "addr", none, none, none⟩] ∧
    ((createOrder true stCatalog 7 reqTwoUnits).1).order_items = [] := by
  with_unfolding_all decide

/-- C3: the claim states each persisted line item carries the
catalog-resolved unit price. Evaluating the handler at a cart whose
undocumented request field `price` is 999 while the catalog price of the
item is 5.00: the created line item stores 999, the client-supplied value
(order.routes.js line 140 reads `item.price`), not the price resolved in
the loop. -/
theorem orderItem_price_clientSupplied :
    ((createOrder false stCatalog 7 reqClientPrice).2).status = 201 ∧
    ((createOrder false stCatalog 7 reqClientPrice).1).order_items.map
        OrderItemRow.price = [some 999] ∧
    stCatalog.menu_items.map MenuItemRow.price = [5] ∧
    (999 : ℚ) ≠ 5 := by
  with_unfolding_all decide

/-- C8: the claim states invalid input is rejected with a ValidationError
before anything is attempted. The declared validator chain fails the empty
items array, yet the handler (which never calls `validationResult`)
proceeds and durably creates an order with total 0. -/
theorem createOrder_skipsValidation :
    validateCreateOrder reqNoItems = false ∧
    ((createOrder false stCatalog 7 reqNoItems).2).status = 201 ∧
    ((createOrder false stCatalog 7 reqNoItems).1).orders.map
        OrderRow.total_amount = [0] ∧
    ((createOrder false stCatalog 7 reqNoItems).1).orders.length
      = stCatalog.orders.length + 1 := by
  with_unfolding_all decide

/-- C2 counterexample: a cart that passes the declared validation, whose
exact decimal total is 0.00, but whose stored total is -8.00. The handler
accumulates `price * quantity` with binary64 arithmetic; with quantities
near 2^31 the intermediate products (about 1.2e17) exceed 2^53, each
rounding step can lose tens of units, and the residue of the cancellation
(-8) survives the DECIMAL(10,2) column rounding on insert. -/
theorem createOrder_total_not_exact_decimal :
    validateCreateOrder reqExtremeCart = true ∧
    reqExtremeCart.items.foldl
        (fun a it => a + priceFunExtreme it.menu_item_id * it.quantity) 0 = 0 ∧
    ((createOrder false stExtremeCatalog 7 reqExtremeCart).2).status = 201 ∧
    Option.map OrderRow.total_amount
        ((createOrder false stExtremeCatalog 7 reqExtremeCart).2).data
      = some (-8) ∧
    (-8 : ℚ) ≠ 0 := by
  with_unfolding_all decide

/-- C4 counterexample: the specified transition table does not allow
pending to move to preparing, yet the admin handler accepts the request
(200) and writes the status, because it never consults the current
status. -/
theorem advance_pending_preparing_accepted :
    "preparing" ∉ specAllowedTo "pending" ∧
    ((advanceOrderStatus stPending 1 "preparing").2).status = 200 ∧
    ((advanceOrderStatus stPending 1 "preparing").1).orders.map
        OrderRow.status = ["preparing"] := by
  with_unfolding_all decide

/-- C6 counterexample: a delivered order is moved back to pending by the
admin status handler, so delivered is not terminal. -/
theorem advance_escapes_delivered :
    orderDelivered.status = "delivered" ∧
    ((advanceOrderStatus stDelivered 1 "pending").2).status = 200 ∧
    ((advanceOrderStatus stDelivered 1 "pending").1).orders.map
        OrderRow.status = ["pending"] := by
  with_unfolding_all decide

/-- C7 counterexample: with an empty catalog the requested item does not
resolve, and the call fails with the generic 500 response produced by the
thrown `.single()` error — not a NotFound (404) response identifying the
item — while the store is left unchanged. -/
theorem createOrder_missingItem_500 :
    createOrder false stEmptyCatalog 7 reqTwoUnits
      = (stEmptyCatalog, ⟨500, none, none⟩) ∧
    (500 : Nat) ≠ 404 := by
  with_unfolding_all decide

/-- C9 counterexample: two transitions on the same pending order, run in
either serialization order of their unconditional updates, both succeed
(200); the later write silently overwrites the earlier one and the final
status is the later target — no request is rejected. -/
theorem racing_advances_both_succeed :
    ((advanceOrderStatus stPending 1 "confirmed").2).status = 200 ∧
    ((advanceOrderStatus (advanceOrderStatus stPending 1 "confirmed").1
        1 "cancelled").2).status = 200 ∧
    ((advanceOrderStatus (advanceOrderStatus stPending 1 "confirmed").1
        1 "cancelled").1).orders.map OrderRow.status = ["cancelled"] := by
  with_unfolding_all decide

/-- C10 counterexample: order 1 belongs to user 1; user 2 attempts to
cancel it. The ownership-filtered `.single()` lookup matches zero rows and
errors, so the handler answers 500 — not the 404 not-found response the
claim describes — and the order is unchanged. -/
theorem cancel_foreignOrder_500 :
    orderPending.user_id = 1 ∧
    cancelOrder stPending 2 1 = (stPending, ⟨500, none, none⟩) ∧
    (500 : Nat) ≠ 404 := by
  with_unfolding_all decide

/-- If some requested item matches no catalog row, the price-resolution
loop fails at the first such item. -/
theorem computeTotal_missing (menu : List MenuItemRow) :
    ∀ (items : List ReqItem) (acc : ℚ),
      (∃ it ∈ items, menu.filter (fun m => m.id == it.menu_item_id) = []) →
      computeTotal menu items acc = Except.error () := by
  intro items
  induction items with
  | nil =>
    intro acc h
    rcases h with ⟨it, hin, _⟩
    cases hin
  | cons a t ih =>
    intro acc h
    unfold computeTotal
    cases hs : single (menu.filter (fun m => m.id == a.menu_item_id)) with
    | error e => simp only [hs]
    | ok m =>
      rcases h with ⟨it, hin, hf⟩
      rcases List.mem_cons.mp hin with rfl | hint
      · rw [hf] at hs
        simp [single] at hs
      · simp only [hs]
        exact ih _ ⟨it, hint, hf⟩

/-- C2 amended: for every cart in which each requested item resolves to
exactly one catalog row (prices given by `pr`), createOrder succeeds and
the total it stores and returns is the DECIMAL(10,2) column rounding of
the left-to-right binary64 floating-point fold of `price × quantity` over
the cart — a snapshot computed once at creation — and later catalog price
updates leave every stored order untouched. For small carts this
coincides with the exact decimal sum, but not in general: see the
counterexample, where the binary64 drift reaches whole currency units and
survives the column rounding. -/
theorem createOrder_total_floatFold_snapshot (st : DBState) (u : Nat)
    (r : CreateOrderReq) (pr : Nat → ℚ)
    (hres : ∀ it ∈ r.items,
      (st.menu_items.filter (fun m => m.id == it.menu_item_id)).map
          MenuItemRow.price = [pr it.menu_item_id]) :
    ((createOrder false st u r).2).status = 201 ∧
    Option.map OrderRow.total_amount ((createOrder false st u r).2).data
      = some (numericRound 2 (r.items.foldl
          (fun a it => jadd a (jmul (fl (pr it.menu_item_id)) it.quantity)) 0)) ∧
    ∀ mid p, (updateMenuItemPrice ((createOrder false st u r).1) mid p).orders
        = ((createOrder false st u r).1).orders := by
  have h := computeTotal_resolved st.menu_items pr r.items 0 hres
  refine ⟨?_, ?_, ?_⟩ <;> simp [createOrder, h, updateMenuItemPrice]

/-- Witness for the C2 amended theorem at the 0.10 / 0.20 catalog. -/
theorem createOrder_total_floatFold_snapshot_witness :
    ((createOrder false stDecimalCatalog 7 reqDecimalCart).2).status = 201 ∧
    Option.map OrderRow.total_amount
        ((createOrder false stDecimalCatalog 7 reqDecimalCart).2).data
      = some (numericRound 2 (reqDecimalCart.items.foldl
          (fun a it => jadd a (jmul (fl (priceFun it.menu_item_id)) it.quantity)) 0)) ∧
    ∀ mid p,
      (updateMenuItemPrice ((createOrder false stDecimalCatalog 7 reqDecimalCart).1)
          mid p).orders
        = ((createOrder false stDecimalCatalog 7 reqDecimalCart).1).orders :=
  createOrder_total_floatFold_snapshot stDecimalCatalog 7 reqDecimalCart priceFun
    (by with_unfolding_all decide)

/-- C4 amended: the admin status handler accepts any of the six
whitelisted statuses regardless of the current status of the order — no
transition table is consulted — updating exactly the status column of the
addressed order (other orders are untouched, and no timestamp is
written); a status string outside the whitelist is rejected with 400. -/
theorem advanceOrderStatus_unconditional (st : DBState) (oid : Nat)
    (s : String) (o : OrderRow)
    (hid : st.orders.filter (fun r => r.id == oid) = [o]) :
    (s ∈ validStatuses →
      ((advanceOrderStatus st oid s).2).status = 200 ∧
      ((advanceOrderStatus st oid s).1).orders.filter (fun r => r.id == oid)
        = [{ o with status := s }] ∧
      ∀ q ∈ st.orders, q.id ≠ oid → q ∈ ((advanceOrderStatus st oid s).1).orders) ∧
    (s ∉ validStatuses →
      advanceOrderStatus st oid s = (st, ⟨400, none, some "Invalid status value"⟩)) := by
  constructor
  · intro hs
    rw [advance_ok st oid s o hs hid]
    refine ⟨rfl, ?_, ?_⟩
    · rw [filter_map_setStatus, hid]
      rfl
    · intro q hq hne
      have hfix : (if q.id = oid then { q with status := s } else q) = q := by
        simp [hne]
      simpa [hfix] using List.mem_map_of_mem
        (fun r => if r.id = oid then { r with status := s } else r) hq
  · intro hs
    exact advance_badStatus st oid s hs

/-- Witness for the C4 amended theorem: order 1 is pending; the whitelisted
target `preparing` is accepted and written; the unknown string `bogus` is
rejected with 400. -/
theorem advanceOrderStatus_unconditional_witness :
    ("preparing" ∈ validStatuses →
      ((advanceOrderStatus stPending 1 "preparing").2).status = 200 ∧
      ((advanceOrderStatus stPending 1 "preparing").1).orders.filter
          (fun r => r.id == 1) = [{ orderPending with status := "preparing" }] ∧
      ∀ q ∈ stPending.orders, q.id ≠ 1 →
        q ∈ ((advanceOrderStatus stPending 1 "preparing").1).orders) ∧
    ("preparing" ∉ validStatuses →
      advanceOrderStatus stPending 1 "preparing"
        = (stPending, ⟨400, none, some "Invalid status value"⟩)) :=
  advanceOrderStatus_unconditional stPending 1 "preparing" orderPending
    (by with_unfolding_all decide)

/-- C5: cancelOrder, called by the owner of the unique order with the
given id, succeeds exactly when the current status is pending or
confirmed, writing status cancelled; from any other status it is rejected
with the 400 "Order cannot be cancelled" response and the store is
returned unchanged. -/
theorem cancelOrder_gate (st : DBState) (u oid : Nat) (o : OrderRow)
    (hid : st.orders.filter (fun r => r.id == oid) = [o])
    (huser : o.user_id = u) :
    ((o.status = "pending" ∨ o.status = "confirmed") →
      ((cancelOrder st u oid).2).status = 200 ∧
      ((cancelOrder st u oid).1).orders.filter (fun r => r.id == oid)
        = [{ o with status := "cancelled" }]) ∧
    (o.status ≠ "pending" → o.status ≠ "confirmed" →
      cancelOrder st u oid = (st, ⟨400, none, some "Order cannot be cancelled"⟩)) := by
  constructor
  · intro hst
    rw [cancel_ok st u oid o hid huser hst]
    refine ⟨rfl, ?_⟩
    rw [filter_map_setStatus, hid]
    rfl
  · intro hne1 hne2
    exact cancel_rejected st u oid o hid huser hne1 hne2

/-- Witness for C5: the pending order of user 1 is cancellable by user 1,
and the delivered order of user 1 is not. -/
theorem cancelOrder_gate_witness :
    ((orderPending.status = "pending" ∨ orderPending.status = "confirmed") →
      ((cancelOrder stPending 1 1).2).status = 200 ∧
      ((cancelOrder stPending 1 1).1).orders.filter (fun r => r.id == 1)
        = [{ orderPending with status := "cancelled" }]) ∧
    (orderPending.status ≠ "pending" → orderPending.status ≠ "confirmed" →
      cancelOrder stPending 1 1
        = (stPending, ⟨400, none, some "Order cannot be cancelled"⟩)) :=
  cancelOrder_gate stPending 1 1 orderPending (by with_unfolding_all decide) rfl

/-- C6 amended: delivered and cancelled are terminal only for the
customer-cancel path — cancelOrder rejects them with 400 and returns the
store unchanged — while the admin status handler can move such an order to
any whitelisted status (here confirmed), so they are not terminal for
advanceOrderStatus. -/
theorem terminal_only_for_cancel (st : DBState) (u oid : Nat) (o : OrderRow)
    (hid : st.orders.filter (fun r => r.id == oid) = [o])
    (huser : o.user_id = u)
    (hterm : o.status = "delivered" ∨ o.status = "cancelled") :
    cancelOrder st u oid = (st, ⟨400, none, some "Order cannot be cancelled"⟩) ∧
    ((advanceOrderStatus st oid "confirmed").2).status = 200 ∧
    ((advanceOrderStatus st oid "confirmed").1).orders.filter
        (fun r => r.id == oid) = [{ o with status := "confirmed" }] := by
  have hne1 : o.status ≠ "pending" := by rcases hterm with h | h <;> simp [h]
  have hne2 : o.status ≠ "confirmed" := by rcases hterm with h | h <;> simp [h]
  refine ⟨cancel_rejected st u oid o hid huser hne1 hne2, ?_, ?_⟩ <;>
      rw [advance_ok st oid "confirmed" o (by simp [validStatuses]) hid]
  rw [filter_map_setStatus, hid]
  rfl

/-- Witness for the C6 amended theorem at the delivered order of user 1. -/
theorem terminal_only_for_cancel_witness :
    cancelOrder stDelivered 1 1
      = (stDelivered, ⟨400, none, some "Order cannot be cancelled"⟩) ∧
    ((advanceOrderStatus stDelivered 1 "confirmed").2).status = 200 ∧
    ((advanceOrderStatus stDelivered 1 "confirmed").1).orders.filter
        (fun r => r.id == 1) = [{ orderDelivered with status := "confirmed" }] :=
  terminal_only_for_cancel stDelivered 1 1 orderDelivered
    (by with_unfolding_all decide) rfl (Or.inl rfl)

/-- C7 amended: when some requested item resolves to no catalog row, the
call fails with the generic 500 response (the thrown `.single()` error,
which does not identify the offending item and is not a 404), and the
store is returned unchanged — no write to orders or order items is
attempted. -/
theorem createOrder_missingItem_noWrites (b : Bool) (st : DBState) (u : Nat)
    (r : CreateOrderReq)
    (h : ∃ it ∈ r.items, st.menu_items.filter (fun m => m.id == it.menu_item_id) = []) :
    createOrder b st u r = (st, ⟨500, none, none⟩) :=
  createOrder_err b st u r (computeTotal_missing st.menu_items r.items 0 h)

/-- Witness for the C7 amended theorem: empty catalog, one-line cart. -/
theorem createOrder_missingItem_noWrites_witness :
    createOrder true stEmptyCatalog 7 reqTwoUnits
      = (stEmptyCatalog, ⟨500, none, none⟩) :=
  createOrder_missingItem_noWrites true stEmptyCatalog 7 reqTwoUnits
    ⟨⟨1, 2, some 5⟩, by with_unfolding_all decide, rfl⟩

/-- C9 amended: two transitions racing on the same order serialize as two
unconditional updates (each handler call is one atomic update statement
that never reads the current status): in either serialization order both
calls succeed with 200, no ConcurrencyConflictError or
InvalidTransitionError is ever produced, and the final persisted status is
simply the later writer target — the earlier write is silently
overwritten. -/
theorem racing_advances_lastWriterWins (st : DBState) (oid : Nat)
    (o : OrderRow) (s1 s2 : String)
    (h1 : s1 ∈ validStatuses) (h2 : s2 ∈ validStatuses)
    (hid : st.orders.filter (fun r => r.id == oid) = [o]) :
    ((advanceOrderStatus st oid s1).2).status = 200 ∧
    ((advanceOrderStatus (advanceOrderStatus st oid s1).1 oid s2).2).status = 200 ∧
    ((advanceOrderStatus (advanceOrderStatus st oid s1).1 oid s2).1).orders.filter
        (fun r => r.id == oid) = [{ o with status := s2 }] := by
  have e1 := advance_ok st oid s1 o h1 hid
  have hid1 : ((advanceOrderStatus st oid s1).1).orders.filter
      (fun r => r.id == oid) = [{ o with status := s1 }] := by
    rw [e1, filter_map_setStatus, hid]
    rfl
  have e2 := advance_ok (advanceOrderStatus st oid s1).1 oid s2
    { o with status := s1 } h2 hid1
  refine ⟨?_, ?_, ?_⟩
  · rw [e1]
  · rw [e2]
  · rw [e2, filter_map_setStatus, hid1]
    rfl

/-- Witness for the C9 amended theorem: confirmed then cancelled on the
pending order. -/
theorem racing_advances_lastWriterWins_witness :
    ((advanceOrderStatus stPending 1 "confirmed").2).status = 200 ∧
    ((advanceOrderStatus (advanceOrderStatus stPending 1 "confirmed").1
        1 "cancelled").2).status = 200 ∧
    ((advanceOrderStatus (advanceOrderStatus stPending 1 "confirmed").1
        1 "cancelled").1).orders.filter (fun r => r.id == 1)
      = [{ orderPending with status := "cancelled" }] :=
  racing_advances_lastWriterWins stPending 1 orderPending "confirmed" "cancelled"
    (by simp [validStatuses]) (by simp [validStatuses])
    (by with_unfolding_all decide)

/-- C10 amended: when the unique order with the given id belongs to a
different user, the ownership-filtered `.single()` lookup matches zero
rows and throws, so the call fails with the generic 500 response (not the
404 not-found branch, which is unreachable) and the store — in particular
every field of the order — is returned unchanged: a customer can never
cancel another user order. -/
theorem cancel_foreignOrder_noEffect (st : DBState) (u oid : Nat) (o : OrderRow)
    (hid : st.orders.filter (fun r => r.id == oid) = [o])
    (hdiff : o.user_id ≠ u) :
    cancelOrder st u oid = (st, ⟨500, none, none⟩) := by
  apply cancel_notOwned
  rw [filter_id_user, hid]
  simp [hdiff]

/-- Witness for the C10 amended theorem: user 2 attacks order 1 of
user 1. -/
theorem cancel_foreignOrder_noEffect_witness :
    cancelOrder stPending 2 1 = (stPending, ⟨500, none, none⟩) :=
  cancel_foreignOrder_noEffect stPending 2 1 orderPending
    (by with_unfolding_all decide) (by with_unfolding_all decide)

end Jetak







